import Mathlib

/-!
Verification of the cost-computation and data-enrichment pipeline of
`src/RDWstreamlit.py` (a vehicle total-cost-of-ownership calculator).

The Python source is shallowly embedded: dictionaries become association
lists, Python floats become `ℚ` (the program only adds, multiplies and
divides decimal inputs), exceptions become `Except String` results, and
the mutable session cache becomes explicit state passing.  External HTTP
responses are modelled by an oracle (`RdwWorld`) mapping a normalized
plate to the raw query outcomes.
-/

set_option autoImplicit false

namespace Car

/-! ### Python string primitives (ASCII fragment used by the program) -/

/-- Model of Python `str.upper()` on the ASCII data this program handles. -/
def pyUpper (s : String) : String := ⟨s.data.map Char.toUpper⟩

/-- Whitespace characters stripped by Python `str.strip()`. -/
def pySpace (c : Char) : Bool :=
  c = ' ' || c = '\t' || c = '\n' || c = '\r' || c = ⟨11, by decide⟩ || c = ⟨12, by decide⟩

/-- Model of Python `str.strip()` (no argument): remove leading and
trailing whitespace. -/
def pyStrip (s : String) : String :=
  ⟨((s.data.dropWhile pySpace).reverse.dropWhile pySpace).reverse⟩

/-- Model of Python `str.replace(old, new)` for single-character old/new,
as used by `wb_str.replace(",", ".")` and `kenteken.replace("-", "")`. -/
def pyReplaceChar (s : String) (old new : Char) : String :=
  ⟨s.data.map (fun c => if c = old then new else c)⟩

/-- Model of Python `str.replace("-", "")`: drop every hyphen. -/
def pyDropHyphens (s : String) : String :=
  ⟨s.data.filter (fun c => c ≠ '-')⟩

/-- Model of Python `str.split(sep)` for a single-character separator
(Python keeps empty fields, e.g. `"".split(" ") == [""]`). -/
def splitOnChar (sep : Char) : List Char → List (List Char)
  | [] => [[]]
  | c :: cs =>
    let r := splitOnChar sep cs
    if c = sep then [] :: r
    else
      match r with
      | [] => [[c]]
      | h :: t => (c :: h) :: t

/-- Test `leadsWith needle hay` : does `hay` start with `needle`? -/
def leadsWith : List Char → List Char → Bool
  | [], _ => true
  | _ :: _, [] => false
  | a :: as, b :: bs => a = b && leadsWith as bs

/-- Model of Python `needle in hay` substring containment. -/
def hasSub (needle : List Char) : List Char → Bool
  | [] => leadsWith needle []
  | c :: cs => leadsWith needle (c :: cs) || hasSub needle cs

/-- Substring containment on `String` (Python `needle in hay`). -/
def strHasSub (hay needle : String) : Bool := hasSub needle.data hay.data

/-! ### Python `float(str)` on the decimal fragment

The registry and the tax site deliver plain decimal strings (optional
sign, digits, at most one decimal point).  `pyFloat` models Python's
`float()` on exactly that fragment and fails (`none`, i.e. `ValueError`)
on everything else; the exponent/`inf`/`nan` forms of `float()` never
occur in this program's data. -/

/-- Numeric value of a digit list, most significant first. -/
def digitsVal (cs : List Char) : ℕ :=
  cs.foldl (fun a c => a * 10 + (c.toNat - 48)) 0

/-- All characters are ASCII digits. -/
def allDigits (cs : List Char) : Bool := cs.all Char.isDigit

/-- Unsigned decimal literal: digits with at most one point, at least one
digit overall.  Returns the digit string's value scaled to an integer
together with the number of decimal places (`"123.45"` ↦ `(12345, 2)`). -/
def parseUnsigned (cs : List Char) : Option (ℕ × ℕ) :=
  match splitOnChar '.' cs with
  | [a] =>
    if a.length > 0 && allDigits a then some (digitsVal a, 0) else none
  | [a, b] =>
    if (a.length + b.length > 0) && allDigits a && allDigits b then
      some (digitsVal a * 10 ^ b.length + digitsVal b, b.length)
    else none
  | _ => none

/-- The rational denoted by a scaled parse result. -/
def scaledVal (p : ℕ × ℕ) : ℚ := (p.1 : ℚ) / (10 : ℚ) ^ p.2

/-- Model of Python `float(s)` for decimal strings: strip whitespace,
optional sign, unsigned decimal literal; `none` models `ValueError`. -/
def pyFloat (s : String) : Option ℚ :=
  match (pyStrip s).data with
  | '-' :: rest => (parseUnsigned rest).map (fun p => -scaledVal p)
  | '+' :: rest => (parseUnsigned rest).map scaledVal
  | rest => (parseUnsigned rest).map scaledVal

/-! ### Association lists standing for Python dicts -/

/-- Python `dict.get(key)` on an association list (first binding wins). -/
def alistGet {α : Type} : List (String × α) → String → Option α
  | [], _ => none
  | (k, v) :: rest, key => if k = key then some v else alistGet rest key

/-- A raw registry record: the JSON object as a string-valued dict (the
RDW open-data API returns every field as a string). -/
abbrev RdwRecord : Type := List (String × String)

/-- Python `base.update(upd)` at the level of key lookup: keys of `upd`
win over keys of `base`. -/
def dictUpdate (base upd : RdwRecord) : RdwRecord := upd ++ base

/-! ### The tax-amount parser (source lines 243–250)

```python
wb_str = get_overijssel_price(kenteken)
try:
    if wb_str.startswith("€"):
        wb_numeric = float(wb_str.split(" ")[1].replace(",", "."))
    else:
        wb_numeric = float(wb_str.replace(",", "."))
except Exception:
    wb_numeric = 0.0
```
-/

/-- The body of the `try` block: `none` models any raised exception
(`ValueError` from `float`, `IndexError` from `[1]`). -/
def wbParse (wb_str : String) : Option ℚ :=
  if leadsWith "€".data wb_str.data then
    match (splitOnChar ' ' wb_str.data).get? 1 with
    | none => none
    | some t => pyFloat (pyReplaceChar ⟨t⟩ ',' '.')
  else
    pyFloat (pyReplaceChar wb_str ',' '.')

/-- Value `wb_numeric` as the source computes it: the `try` body with every
exception caught and turned into `0.0`. -/
def wb_numeric (wb_str : String) : ℚ := (wbParse wb_str).getD 0

/-! ### The registry fetch `get_all_rdw_data` (source lines 67–102)

The function normalizes the plate, consults the session cache, and on a
miss issues one request sequence: a GET on the base dataset
(`m9d7-ebf2`), then a GET on the fuel dataset (`8ys7-d773`), both inside
one `try` whose `except requests.RequestException` caches and returns an
error dict.  The result of a run — success or error — is always cached
under the normalized plate. -/

/-- Plate normalization at the top of `get_all_rdw_data`:
`kenteken.upper().replace("-", "").strip()`. -/
def rdwNormalize (kenteken : String) : String :=
  pyStrip (pyDropHyphens (pyUpper kenteken))

/-- Result of the fetch: a merged record, or the error dict
`{"error": msg}` the source builds on an empty base result or a raised
`RequestException`. -/
inductive RdwResult where
  | ok (r : RdwRecord)
  | error (msg : String)
deriving DecidableEq

/-- Outcome of one external HTTP GET: a raised `RequestException`
(transport failure or `raise_for_status`), or a JSON array of records. -/
inductive ReqResult where
  | exn (msg : String)
  | json (rows : List RdwRecord)

/-- Oracle for the two external registry endpoints, keyed by the
normalized plate (both URLs embed the normalized plate). -/
structure RdwWorld where
  base : String → ReqResult
  fuel : String → ReqResult

/-- Explicit session state: the `st.session_state.rdw_cache` dict, plus a
count of external request sequences issued (for the cache-once claim). -/
structure RdwState where
  cache : List (String × RdwResult)
  requestCount : ℕ

/-- One cache-storing return: `st.session_state.rdw_cache[kenteken] = r;
return r`. -/
def cacheStore (st : RdwState) (k : String) (r : RdwResult) : RdwResult × RdwState :=
  (r, ⟨(k, r) :: st.cache, st.requestCount⟩)

/-- Model of `get_all_rdw_data`, with the pandas date reformatting of
`datum_eerste_toelating` / `vervaldatum_apk` (lines 87–97) abstracted as
the record transformation `dateFmt` — no claim below depends on it. -/
def get_all_rdw_data (dateFmt : RdwRecord → RdwRecord) (w : RdwWorld)
    (st : RdwState) (kenteken : String) : RdwResult × RdwState :=
  let k := rdwNormalize kenteken
  match alistGet st.cache k with
  | some r => (r, st)
  | none =>
    let st1 : RdwState := ⟨st.cache, st.requestCount + 1⟩
    match w.base k with
    | .exn e => cacheStore st1 k (.error ("Error: " ++ e))
    | .json [] => cacheStore st1 k (.error "Geen data gevonden")
    | .json (b :: _) =>
      match w.fuel k with
      | .exn e => cacheStore st1 k (.error ("Error: " ++ e))
      | .json [] => cacheStore st1 k (.ok (dateFmt b))
      | .json (f :: _) => cacheStore st1 k (.ok (dateFmt (dictUpdate b f)))

/-! ### Field access and the consumption resolver (source lines 104–142) -/

/-- Model of `get_rdw_data(kenteken, veld)` on an already-fetched result: returns
the error message string when the result is the error dict, else
`all_data.get(veld)` (`none` models Python `None`). -/
def get_rdw_data (res : RdwResult) (veld : String) : Option String :=
  match res with
  | .error msg => some msg
  | .ok r => alistGet r veld

/-- Model of `get_rdw_brandstof`: the `brandstof_omschrijving` field. -/
def get_rdw_brandstof (res : RdwResult) : Option String :=
  get_rdw_data res "brandstof_omschrijving"

/-- Python truthiness-guarded electric test
`brandstof and "ELEKTR" in brandstof.upper()`. -/
def isElectricStr (brandstof : Option String) : Bool :=
  match brandstof with
  | none => false
  | some b => b ≠ "" && strHasSub (pyUpper b) "ELEKTR"

/-- The marker string the source compares fields against. -/
def veldNietGevonden : String := "Veld niet gevonden"

/-- Model of `float(x)` applied to an optional field value inside
`try/except (ValueError, TypeError)`: `None` raises `TypeError`, an
unparseable string raises `ValueError`, both caught to `0.0`. -/
def floatOr0 (v : Option String) : ℚ :=
  match v with
  | none => 0
  | some s => (pyFloat s).getD 0

/-- Model of `get_rdw_brandstof_verbruik(kenteken, brandstof_type_keuze=None)`:
WLTP-preferred consumption with the electric fallback.  Electric branch:
read `elektrisch_verbruik_enkel_elektrisch_wltp`, substitute the raw
fallback 170 when the field is `None` or `"Veld niet gevonden"`, coerce
with `float` (exceptions → `0.0`), divide by 10.  Other branch: prefer
`brandstof_verbruik_gecombineerd_wltp`, fall back to
`brandstofverbruik_gecombineerd`, coerce the same way. -/
def get_rdw_brandstof_verbruik (res : RdwResult)
    (brandstof_type_keuze : Option String := none) : ℚ :=
  let brandstof := get_rdw_brandstof res
  if brandstof_type_keuze = some "ELEKTRICITEIT" || isElectricStr brandstof then
    let verbruik := get_rdw_data res "elektrisch_verbruik_enkel_elektrisch_wltp"
    let numeric_verbruik : ℚ :=
      match verbruik with
      | none => 170
      | some s => if s = veldNietGevonden then 170 else (pyFloat s).getD 0
    numeric_verbruik / 10
  else
    let verbruik :=
      match get_rdw_data res "brandstof_verbruik_gecombineerd_wltp" with
      | none => get_rdw_data res "brandstofverbruik_gecombineerd"
      | some s =>
        if s = veldNietGevonden then get_rdw_data res "brandstofverbruik_gecombineerd"
        else some s
    floatOr0 verbruik

/-- The unit attached to the displayed consumption (source line 284):
`"... L/100km" if brandstof and "ELEKTR" not in brandstof.upper() else
"... kWh/100km"`. -/
def verbruikUnit (brandstof : Option String) : String :=
  match brandstof with
  | some b =>
    if b ≠ "" && !strHasSub (pyUpper b) "ELEKTR" then "L/100km" else "kWh/100km"
  | none => "kWh/100km"

/-! ### The cost engine (source lines 188–273)

The main loop builds `kenteken_list = [k.strip().upper() for k in ...]`
(hyphens retained), fetches the record (skipping error results), then
resolves overrides, parses the road tax and computes the breakdown. -/

/-- How one entered plate line becomes the loop's `kenteken`:
`k.strip().upper()`. -/
def inputPlate (k : String) : String := pyUpper (pyStrip k)

/-- The global sidebar parameters (`st.session_state.stamdata`). -/
structure Stamdata where
  jaarlijkse_km : ℚ
  brandstofprijs : ℚ
  elektraprijs : ℚ
  rente : ℚ

/-- The per-plate override dict `st.session_state.overrides`
(string keys such as `"aanschaf_<kenteken>"` to numbers). -/
abbrev Overrides : Type := List (String × ℚ)

/-- Python `overrides.get(key, default)` once the default value is known. -/
def ovGet (ov : Overrides) (key : String) (d : ℚ) : ℚ :=
  (alistGet ov key).getD d

/-- The default expression of the purchase price (source line 221):
`float(catalogusprijs) if catalogusprijs and catalogusprijs != "Geen data
gevonden" else 15000.00`.  `float` on a present, truthy, non-marker but
non-numeric string raises `ValueError`, modelled as `.error`. -/
def aanschafDefault (catalogusprijs : Option String) : Except String ℚ :=
  match catalogusprijs with
  | none => .ok 15000
  | some c =>
    if c ≠ "" && c ≠ "Geen data gevonden" then
      match pyFloat c with
      | some q => .ok q
      | none => .error "ValueError: could not convert string to float"
    else .ok 15000

/-- Assignment `aanschafwaarde = overrides.get(f'aanschaf_<kenteken>',
<default expression>)` — Python evaluates the default expression eagerly,
before the dict lookup, so a raising default raises even when the
override is present. -/
def aanschafwaarde (ov : Overrides) (kenteken : String)
    (catalogusprijs : Option String) : Except String ℚ :=
  match aanschafDefault catalogusprijs with
  | .error e => .error e
  | .ok d => .ok (ovGet ov ("aanschaf_" ++ kenteken) d)

/-- The computed per-plate cost breakdown: every parameter used plus the
derived monetary fields, named as the source's local variables. -/
structure Breakdown where
  aanschafwaarde : ℚ
  afschrijving_percentage : ℚ
  verzekering_per_maand : ℚ
  leaseprijs : ℚ
  onderhoud_per_maand : ℚ
  wb_numeric : ℚ
  afschrijving_per_maand_calc : ℚ
  verbruik : ℚ
  brandstof_per_maand : ℚ
  rente_per_maand : ℚ
  kosten_excl_brandstof : ℚ
  kosten_incl_brandstof : ℚ
  leaseprijs_incl : ℚ
  verschil : ℚ
deriving DecidableEq

/-- The per-plate body of the main loop (source lines 213–273) for a
plate whose fetch returned a record: resolve overrides against defaults,
parse the road tax string, resolve consumption (the loop's
`get_rdw_brandstof_verbruik(kenteken)` call hits the cache entry written
by the initial fetch, so it reads the same record `car`), and compute the
monthly cost fields. -/
def computeBreakdown (ov : Overrides) (kenteken : String) (car : RdwRecord)
    (wb_str : String) (sd : Stamdata) : Except String Breakdown :=
  match aanschafwaarde ov kenteken (alistGet car "catalogusprijs") with
  | .error e => .error e
  | .ok aw =>
    let afschrijving_percentage := ovGet ov ("afschrijving_" ++ kenteken) 15
    let verzekering_per_maand := ovGet ov ("verzekering_" ++ kenteken) 200
    let leaseprijs := ovGet ov ("lease_" ++ kenteken) 0
    let onderhoud_per_maand := ovGet ov ("onderhoud_" ++ kenteken) 80
    let brandstof := alistGet car "brandstof_omschrijving"
    let wb := wb_numeric wb_str
    let afschrijving_per_maand_calc := (aw * (afschrijving_percentage / 100)) / 12
    let verbruik := get_rdw_brandstof_verbruik (.ok car)
    let kosten_brandstof_per_jaar :=
      if isElectricStr brandstof then
        (sd.jaarlijkse_km / 100) * verbruik * sd.elektraprijs
      else
        (sd.jaarlijkse_km / 100) * verbruik * sd.brandstofprijs
    let brandstof_per_maand := kosten_brandstof_per_jaar / 12
    let rente_per_jaar := aw * (sd.rente / 100)
    let rente_per_maand := rente_per_jaar / 12
    let kosten_excl_brandstof :=
      afschrijving_per_maand_calc + rente_per_maand + verzekering_per_maand +
        onderhoud_per_maand + wb
    let kosten_incl_brandstof := kosten_excl_brandstof + brandstof_per_maand
    let leaseprijs_incl := leaseprijs + brandstof_per_maand
    let verschil := leaseprijs_incl - kosten_incl_brandstof
    .ok ⟨aw, afschrijving_percentage, verzekering_per_maand, leaseprijs,
      onderhoud_per_maand, wb, afschrijving_per_maand_calc, verbruik,
      brandstof_per_maand, rente_per_maand, kosten_excl_brandstof,
      kosten_incl_brandstof, leaseprijs_incl, verschil⟩

/-- Rounding to two decimals as the source's `f"€ {x:,.2f}"` display
formats every monetary field (none of the claimed figures sits at a
half-cent tie, so nearest-rounding is exact here). -/
def round2 (q : ℚ) : ℚ := (round (q * 100) : ℤ) / 100

/-! ### Concrete inputs used by individual claims -/

/-- Electric record with the WLTP-electric field absent (for C4). -/
def carC4 : RdwRecord := [("brandstof_omschrijving", "Elektriciteit")]

/-- Overrides for the end-to-end scenario of C9: purchase price 20000,
depreciation 12 %, insurance 150/month, maintenance 80/month. -/
def ovC9 : Overrides :=
  [("aanschaf_AB12CD", 20000), ("afschrijving_AB12CD", 12),
   ("verzekering_AB12CD", 150), ("onderhoud_AB12CD", 80)]

/-- Petrol record with combined WLTP consumption 6.5 L/100km (for C9). -/
def carC9 : RdwRecord :=
  [("catalogusprijs", "30000"), ("brandstof_omschrijving", "Benzine"),
   ("brandstof_verbruik_gecombineerd_wltp", "6.5")]

/-- Global parameters for C9: 15000 km/year, fuel 1.80 €/L,
electricity 0.35 €/kWh, interest 5 %. -/
def sdC9 : Stamdata := ⟨15000, 1.80, 0.35, 5⟩

/-! ## Claims -/

/-- C5: the tax-amount string parser maps `"€ 123,45"` to `123.45`
(stripping the currency symbol and normalizing the comma separator), maps
the not-found marker `"Niet gevonden"` to `0.0`, and maps every input on
which the parse attempt raises to `0.0` instead of propagating the
exception. -/
theorem C5_tax_parsing :
    wb_numeric "€ 123,45" = 123.45 ∧ wb_numeric "Niet gevonden" = 0 ∧
    ∀ s : String, wbParse s = none → wb_numeric s = 0 := by
  refine ⟨?_, ?_, ?_⟩
  · simp +decide [wb_numeric, wbParse, pyFloat, pyStrip, pySpace, pyReplaceChar,
      splitOnChar, parseUnsigned, digitsVal, allDigits, leadsWith, scaledVal]
    norm_num
  · simp +decide [wb_numeric, wbParse, pyFloat, pyStrip, pySpace, pyReplaceChar,
      splitOnChar, parseUnsigned, digitsVal, allDigits, leadsWith, scaledVal]
  · intro s h
    simp [wb_numeric, h]

/-- Witness for C5: the unparseable input `"abc"` satisfies the third
conjunct's hypothesis and yields `0.0`. -/
theorem C5_tax_parsing_witness :
    wbParse "abc" = none ∧ wb_numeric "abc" = 0 := by
  refine ⟨by decide, C5_tax_parsing.2.2 "abc" (by decide)⟩

/-- C4: for every record whose fuel-type description is present, truthy
and contains the electric marker (the source's case-insensitive check
`"ELEKTR" in brandstof.upper()`), and whose
`elektrisch_verbruik_enkel_elektrisch_wltp` field is absent or holds the
marker `"Veld niet gevonden"`, the consumption resolver returns exactly
`17.0` (fallback raw value 170 divided by 10) and the attached unit is
`kWh/100km`. -/
theorem C4_electric_fallback (car : RdwRecord) (b : String)
    (hbrand : alistGet car "brandstof_omschrijving" = some b)
    (hne : b ≠ "")
    (hmark : strHasSub (pyUpper b) "ELEKTR" = true)
    (hfield : alistGet car "elektrisch_verbruik_enkel_elektrisch_wltp" = none ∨
      alistGet car "elektrisch_verbruik_enkel_elektrisch_wltp" = some veldNietGevonden) :
    get_rdw_brandstof_verbruik (.ok car) = 17 ∧
    verbruikUnit (some b) = "kWh/100km" := by
  have hel : isElectricStr (alistGet car "brandstof_omschrijving") = true := by
    rw [hbrand]
    simp [isElectricStr, hne, hmark]
  constructor
  · simp only [get_rdw_brandstof_verbruik, get_rdw_brandstof, get_rdw_data, hel,
      Bool.or_true, if_true]
    rcases hfield with h | h <;> simp [h, veldNietGevonden] <;> norm_num
  · simp [verbruikUnit, hmark]

/-- Witness for C4: a concrete electric record with the WLTP-electric
field absent resolves to 17 kWh/100km. -/
theorem C4_electric_fallback_witness :
    get_rdw_brandstof_verbruik (.ok carC4) = 17 ∧
    verbruikUnit (some "Elektriciteit") = "kWh/100km" :=
  C4_electric_fallback carC4 "Elektriciteit" (by decide) (by decide) (by decide)
    (Or.inl (by decide))

/-- C9: on the concrete scenario — purchase price 20000 (override),
depreciation 12 %, interest 5 %, road tax not found (0), insurance
150/month, maintenance 80/month, 15000 km/year, consumption 6.5 L/100km,
fuel price 1.80 €/L — the computed breakdown has depreciation/month
200.00, energy/month 146.25, and, rounded to the two decimals the source
displays (`f"€ {x:,.2f}"`), interest/month 83.33, total excluding energy
513.33 and total including energy 659.58. -/
theorem C9_end_to_end :
    (computeBreakdown ovC9 "AB12CD" carC9 "Niet gevonden" sdC9).map
      (fun b => (b.afschrijving_per_maand_calc, b.brandstof_per_maand,
        round2 b.rente_per_maand, round2 b.kosten_excl_brandstof,
        round2 b.kosten_incl_brandstof)) =
    .ok (200, 146.25, 83.33, 513.33, 659.58) := by
  simp +decide [ovC9, carC9, sdC9, computeBreakdown, aanschafwaarde, aanschafDefault,
    ovGet, alistGet, wb_numeric, wbParse, pyFloat, pyStrip, pySpace, pyReplaceChar,
    splitOnChar, parseUnsigned, digitsVal, allDigits, leadsWith, scaledVal,
    get_rdw_brandstof_verbruik, get_rdw_brandstof, get_rdw_data, isElectricStr,
    strHasSub, hasSub, pyUpper, floatOr0, veldNietGevonden, round2, Except.map]
  norm_num [round_eq]

/-- C1: in every computed breakdown, the total monthly cost including
energy equals the total excluding energy plus the monthly energy cost,
exactly; and the total excluding energy equals exactly depreciation per
month + interest per month + insurance per month + maintenance per month
+ road tax. -/
theorem C1_total_invariant (ov : Overrides) (kenteken : String) (car : RdwRecord)
    (wb_str : String) (sd : Stamdata) (b : Breakdown)
    (h : computeBreakdown ov kenteken car wb_str sd = .ok b) :
    b.kosten_incl_brandstof = b.kosten_excl_brandstof + b.brandstof_per_maand ∧
    b.kosten_excl_brandstof = b.afschrijving_per_maand_calc + b.rente_per_maand +
      b.verzekering_per_maand + b.onderhoud_per_maand + b.wb_numeric := by
  unfold computeBreakdown at h
  split at h
  · exact absurd h (by simp)
  · injection h with h
    subst h
    exact ⟨rfl, rfl⟩

/-- The breakdown computed for an empty record with no overrides, empty
tax string and all-zero global parameters (for the C1 witness). -/
def bC1 : Breakdown := ⟨15000, 15, 200, 0, 80, 0, 187.5, 0, 0, 0, 467.5, 467.5, 0, -467.5⟩

/-- Witness for C1 at a concrete computed breakdown. -/
theorem C1_total_invariant_witness :
    computeBreakdown [] "X" [] "x" ⟨0, 0, 0, 0⟩ = .ok bC1 ∧
    (bC1.kosten_incl_brandstof = bC1.kosten_excl_brandstof + bC1.brandstof_per_maand ∧
     bC1.kosten_excl_brandstof = bC1.afschrijving_per_maand_calc + bC1.rente_per_maand +
       bC1.verzekering_per_maand + bC1.onderhoud_per_maand + bC1.wb_numeric) := by
  have h : computeBreakdown [] "X" [] "x" ⟨0, 0, 0, 0⟩ = .ok bC1 := by
    simp +decide [bC1, computeBreakdown, aanschafwaarde, aanschafDefault, ovGet,
      alistGet, wb_numeric, wbParse, pyFloat, pyStrip, pySpace, pyReplaceChar,
      splitOnChar, parseUnsigned, digitsVal, allDigits, leadsWith, scaledVal,
      get_rdw_brandstof_verbruik, get_rdw_brandstof, get_rdw_data, isElectricStr,
      floatOr0, veldNietGevonden]
    norm_num
  exact ⟨h, C1_total_invariant [] "X" [] "x" ⟨0, 0, 0, 0⟩ bC1 h⟩

/-- C10: the per-plate override key is built from the plate as entered on
its input line, only trimmed and uppercased, hyphens retained; so the two
spellings `"12-AB-34"` and `"12AB34"` consult distinct override entries —
an override stored under the hyphenated spelling is not applied to the
plain spelling, which falls back to the default (here the list price
30000) — even though both spellings normalize to the same registry cache
key. -/
theorem C10_override_key_spellings :
    "aanschaf_" ++ inputPlate " 12-ab-34 " = "aanschaf_12-AB-34" ∧
    inputPlate "12-AB-34" ≠ inputPlate "12AB34" ∧
    rdwNormalize (inputPlate "12-AB-34") = rdwNormalize (inputPlate "12AB34") ∧
    (computeBreakdown [("aanschaf_12-AB-34", 20000)] (inputPlate "12-AB-34")
        carC9 "Niet gevonden" sdC9).map Breakdown.aanschafwaarde = .ok 20000 ∧
    (computeBreakdown [("aanschaf_12-AB-34", 20000)] (inputPlate "12AB34")
        carC9 "Niet gevonden" sdC9).map Breakdown.aanschafwaarde = .ok 30000 := by
  refine ⟨by decide, by decide, by decide, ?_, ?_⟩ <;>
    · simp +decide [carC9, sdC9, computeBreakdown, aanschafwaarde, aanschafDefault,
        ovGet, alistGet, wb_numeric, wbParse, pyFloat, pyStrip, pySpace,
        pyReplaceChar, splitOnChar, parseUnsigned, digitsVal, allDigits, leadsWith,
        scaledVal, get_rdw_brandstof_verbruik, get_rdw_brandstof, get_rdw_data,
        isElectricStr, floatOr0, veldNietGevonden, inputPlate, pyUpper, strHasSub,
        hasSub, Except.map]

/-- Counterexample to C2 as stated: with no override, a list price that
is present, truthy and not the not-found marker but non-numeric reaches
`float(catalogusprijs)`, which raises — the computation does not fall
back to 15000. -/
theorem C2_counterexample :
    aanschafwaarde [] "XY89Z" (some "abc") =
      .error "ValueError: could not convert string to float" := rfl

/-- C2 (amended): with no override, the purchase price is the parsed list
price when the field is present, non-empty, not the marker
`"Geen data gevonden"` and numeric; it is the fallback 15000 when the
field is absent, empty or the marker; and when the field is present,
truthy, not the marker but non-numeric, the computation raises a
`ValueError` instead of falling back. -/
theorem C2_purchase_price_default (ov : Overrides) (kenteken : String)
    (cp : Option String)
    (hno : alistGet ov ("aanschaf_" ++ kenteken) = none) :
    (cp = none → aanschafwaarde ov kenteken cp = .ok 15000) ∧
    (∀ c, cp = some c → (c = "" ∨ c = "Geen data gevonden") →
      aanschafwaarde ov kenteken cp = .ok 15000) ∧
    (∀ c q, cp = some c → c ≠ "" → c ≠ "Geen data gevonden" → pyFloat c = some q →
      aanschafwaarde ov kenteken cp = .ok q) ∧
    (∀ c, cp = some c → c ≠ "" → c ≠ "Geen data gevonden" → pyFloat c = none →
      aanschafwaarde ov kenteken cp =
        .error "ValueError: could not convert string to float") := by
  refine ⟨?_, ?_, ?_, ?_⟩
  · rintro rfl
    simp [aanschafwaarde, aanschafDefault, ovGet, hno]
  · rintro c rfl (rfl | rfl) <;> simp [aanschafwaarde, aanschafDefault, ovGet, hno]
  · rintro c q rfl hc hm hq
    simp [aanschafwaarde, aanschafDefault, ovGet, hno, hc, hm, hq]
  · rintro c rfl hc hm hq
    simp [aanschafwaarde, aanschafDefault, ovGet, hno, hc, hm, hq]

/-- Witness for C2 (amended): a numeric list price is used, an absent one
falls back to 15000. -/
theorem C2_purchase_price_default_witness :
    aanschafwaarde [] "AA11BB" (some "30000") = .ok 30000 ∧
    aanschafwaarde [] "AA11BB" none = .ok 15000 := by
  have hq : pyFloat "30000" = some 30000 := by
    simp +decide [pyFloat, pyStrip, pySpace, splitOnChar, parseUnsigned, digitsVal,
      allDigits, scaledVal]
  exact ⟨(C2_purchase_price_default [] "AA11BB" (some "30000") rfl).2.2.1 "30000"
      30000 rfl (by decide) (by decide) hq,
    (C2_purchase_price_default [] "AA11BB" none rfl).1 rfl⟩

/-- Overrides for the C7 counterexample: purchase-price override present. -/
def ovC7x : Overrides := [("aanschaf_XK45L", 20000)]

/-- Record with a non-numeric list price (for the C7 counterexample). -/
def carC7x : RdwRecord := [("catalogusprijs", "xyz")]

/-- Counterexample to C7 as stated: Python evaluates the default
expression of `overrides.get` eagerly, so with the purchase-price
override present and a non-numeric list price the computation still
raises — it does not simply use the override and ignore the default. -/
theorem C7_counterexample :
    computeBreakdown ovC7x "XK45L" carC7x "x" ⟨0, 0, 0, 0⟩ =
      .error "ValueError: could not convert string to float" := rfl

/-- C7 (amended): whenever the computation completes, every parameter
with a per-plate override uses the override value, never the default, and
with the override absent uses the default (parsed list price or fallback
for the purchase price; the constants 15, 200, 0 and 80 for depreciation
rate, insurance, lease price and maintenance); but for the purchase price
the default expression is still evaluated while the override is present,
so a present non-numeric list price raises despite the override. -/
theorem C7_override_precedence (ov : Overrides) (kenteken : String) (car : RdwRecord)
    (wb_str : String) (sd : Stamdata) (b : Breakdown)
    (h : computeBreakdown ov kenteken car wb_str sd = .ok b) :
    (∀ v, alistGet ov ("aanschaf_" ++ kenteken) = some v → b.aanschafwaarde = v) ∧
    (∀ d, alistGet ov ("aanschaf_" ++ kenteken) = none →
      aanschafDefault (alistGet car "catalogusprijs") = .ok d → b.aanschafwaarde = d) ∧
    (∀ v, alistGet ov ("afschrijving_" ++ kenteken) = some v →
      b.afschrijving_percentage = v) ∧
    (alistGet ov ("afschrijving_" ++ kenteken) = none → b.afschrijving_percentage = 15) ∧
    (∀ v, alistGet ov ("verzekering_" ++ kenteken) = some v →
      b.verzekering_per_maand = v) ∧
    (alistGet ov ("verzekering_" ++ kenteken) = none → b.verzekering_per_maand = 200) ∧
    (∀ v, alistGet ov ("lease_" ++ kenteken) = some v → b.leaseprijs = v) ∧
    (alistGet ov ("lease_" ++ kenteken) = none → b.leaseprijs = 0) ∧
    (∀ v, alistGet ov ("onderhoud_" ++ kenteken) = some v →
      b.onderhoud_per_maand = v) ∧
    (alistGet ov ("onderhoud_" ++ kenteken) = none → b.onderhoud_per_maand = 80) := by
  unfold computeBreakdown at h
  split at h
  · exact absurd h (by simp)
  · rename_i aw haw
    injection h with h
    subst h
    unfold aanschafwaarde at haw
    split at haw
    · exact absurd haw (by simp)
    · rename_i d hdef
      injection haw with haw
      refine ⟨?_, ?_, ?_, ?_, ?_, ?_, ?_, ?_, ?_, ?_⟩
      · intro v hv
        show aw = v
        rw [← haw]
        simp [ovGet, hv]
      · intro d' hno hdef'
        rw [hdef] at hdef'
        injection hdef' with hdef'
        subst hdef'
        show aw = d
        rw [← haw]
        simp [ovGet, hno]
      · intro v hv
        show ovGet ov ("afschrijving_" ++ kenteken) 15 = v
        simp [ovGet, hv]
      · intro hno
        show ovGet ov ("afschrijving_" ++ kenteken) 15 = 15
        simp [ovGet, hno]
      · intro v hv
        show ovGet ov ("verzekering_" ++ kenteken) 200 = v
        simp [ovGet, hv]
      · intro hno
        show ovGet ov ("verzekering_" ++ kenteken) 200 = 200
        simp [ovGet, hno]
      · intro v hv
        show ovGet ov ("lease_" ++ kenteken) 0 = v
        simp [ovGet, hv]
      · intro hno
        show ovGet ov ("lease_" ++ kenteken) 0 = 0
        simp [ovGet, hno]
      · intro v hv
        show ovGet ov ("onderhoud_" ++ kenteken) 80 = v
        simp [ovGet, hv]
      · intro hno
        show ovGet ov ("onderhoud_" ++ kenteken) 80 = 80
        simp [ovGet, hno]

/-- Overrides with all five per-plate parameters present (for the C7
witness). -/
def ovC7 : Overrides :=
  [("aanschaf_ZZ11Y", 1), ("afschrijving_ZZ11Y", 2), ("verzekering_ZZ11Y", 3),
   ("lease_ZZ11Y", 4), ("onderhoud_ZZ11Y", 5)]

/-- The breakdown computed from `ovC7` on an empty record (for the C7
witness). -/
def bC7 : Breakdown :=
  ⟨1, 2, 3, 4, 5, 0, 1/600, 0, 0, 0, 4801/600, 4801/600, 4, -2401/600⟩

/-- Witness for C7 (amended): with all five overrides present the
computation completes and every parameter equals its override value. -/
theorem C7_override_precedence_witness :
    computeBreakdown ovC7 "ZZ11Y" [] "x" ⟨0, 0, 0, 0⟩ = .ok bC7 ∧
    bC7.aanschafwaarde = 1 ∧ bC7.afschrijving_percentage = 2 ∧
    bC7.verzekering_per_maand = 3 ∧ bC7.leaseprijs = 4 ∧
    bC7.onderhoud_per_maand = 5 := by
  have h : computeBreakdown ovC7 "ZZ11Y" [] "x" ⟨0, 0, 0, 0⟩ = .ok bC7 := by
    simp +decide [ovC7, bC7, computeBreakdown, aanschafwaarde, aanschafDefault,
      ovGet, alistGet, wb_numeric, wbParse, pyFloat, pyStrip, pySpace,
      pyReplaceChar, splitOnChar, parseUnsigned, digitsVal, allDigits, leadsWith,
      scaledVal, get_rdw_brandstof_verbruik, get_rdw_brandstof, get_rdw_data,
      isElectricStr, floatOr0, veldNietGevonden]
    norm_num
  have c := C7_override_precedence ovC7 "ZZ11Y" [] "x" ⟨0, 0, 0, 0⟩ bC7 h
  exact ⟨h, c.1 1 (by decide), c.2.2.1 2 (by decide), c.2.2.2.2.1 3 (by decide),
    c.2.2.2.2.2.2.1 4 (by decide), c.2.2.2.2.2.2.2.2.1 5 (by decide)⟩

/-- Record with a negative stored consumption value and no fuel-type
description (for the C8 counterexample). -/
def carC8x : RdwRecord := [("brandstof_verbruik_gecombineerd_wltp", "-50")]

/-- Counterexample to C8 as stated: on a record with no fuel-type
description and stored combined consumption `"-50"`, the resolver takes
the non-electric branch yet returns the negative value `-50`, and the
displayed unit is `kWh/100km` although the claim requires `L/100km` for
the non-electric branch. -/
theorem C8_counterexample :
    get_rdw_brandstof_verbruik (.ok carC8x) = -50 ∧
    isElectricStr (alistGet carC8x "brandstof_omschrijving") = false ∧
    verbruikUnit (alistGet carC8x "brandstof_omschrijving") = "kWh/100km" := by
  refine ⟨?_, by decide, by decide⟩
  simp +decide [carC8x, get_rdw_brandstof_verbruik, get_rdw_brandstof, get_rdw_data,
    isElectricStr, alistGet, floatOr0, veldNietGevonden, pyFloat, pyStrip, pySpace,
    splitOnChar, parseUnsigned, digitsVal, allDigits, scaledVal]

/-- C8 (amended): for a record whose fuel-type description is present and
truthy and whose stored field values, where numeric, are non-negative,
the resolver returns a non-negative value; the displayed unit is
`kWh/100km` exactly when the electric branch is taken and `L/100km`
otherwise; and an absent or non-numeric final value coerces to `0.0`
instead of raising.  (When the description is absent, the non-electric
branch is taken but the displayed unit is `kWh/100km`, and a negative
stored value is passed through — see the counterexample.) -/
theorem C8_resolver_sign_unit (car : RdwRecord) (b : String)
    (hbrand : alistGet car "brandstof_omschrijving" = some b)
    (hne : b ≠ "")
    (hnn : ∀ k v q, alistGet car k = some v → pyFloat v = some q → 0 ≤ q) :
    0 ≤ get_rdw_brandstof_verbruik (.ok car) ∧
    (isElectricStr (some b) = true → verbruikUnit (some b) = "kWh/100km") ∧
    (isElectricStr (some b) = false → verbruikUnit (some b) = "L/100km") ∧
    (∀ v, (v = none ∨ ∃ s, v = some s ∧ pyFloat s = none) → floatOr0 v = 0) := by
  have hfl : ∀ k : String, 0 ≤ floatOr0 (alistGet car k) := by
    intro k
    cases hv : alistGet car k with
    | none => simp [floatOr0]
    | some s =>
      simp only [floatOr0]
      cases hq : pyFloat s with
      | none => simp
      | some q => simpa using hnn k s q hv hq
  refine ⟨?_, ?_, ?_, ?_⟩
  · unfold get_rdw_brandstof_verbruik
    simp only [get_rdw_brandstof, get_rdw_data, hbrand]
    cases helec : isElectricStr (some b) with
    | true =>
      simp only [helec, Bool.or_true, if_true]
      have h10 : (0:ℚ) ≤ 10 := by norm_num
      apply div_nonneg _ h10
      cases hv : alistGet car "elektrisch_verbruik_enkel_elektrisch_wltp" with
      | none => norm_num
      | some s =>
        by_cases hm : s = veldNietGevonden
        · simp [hm]
        · simp only [if_neg hm]
          cases hq : pyFloat s with
          | none => simp
          | some q => simpa using hnn "elektrisch_verbruik_enkel_elektrisch_wltp" s q hv hq
    | false =>
      simp only [helec, Bool.or_false]
      rw [if_neg (by decide)]
      cases hw : alistGet car "brandstof_verbruik_gecombineerd_wltp" with
      | none => exact hfl "brandstofverbruik_gecombineerd"
      | some s =>
        by_cases hm : s = veldNietGevonden
        · simp only [hw, if_pos hm]
          exact hfl "brandstofverbruik_gecombineerd"
        · simp only [hw, if_neg hm, floatOr0]
          cases hq : pyFloat s with
          | none => simp
          | some q => simpa using hnn "brandstof_verbruik_gecombineerd_wltp" s q hw hq
  · intro he
    have hsub : strHasSub (pyUpper b) "ELEKTR" = true := by
      simpa [isElectricStr, hne] using he
    simp [verbruikUnit, hsub]
  · intro he
    have hsub : strHasSub (pyUpper b) "ELEKTR" = false := by
      simpa [isElectricStr, hne] using he
    simp [verbruikUnit, hsub, hne]
  · rintro v (rfl | ⟨s, rfl, hs⟩)
    · simp [floatOr0]
    · simp [floatOr0, hs]

/-- Non-electric record with only a fuel-type description (for the C8
witness). -/
def carC8 : RdwRecord := [("brandstof_omschrijving", "Benzine")]

/-- Witness for C8 (amended) on a concrete petrol record. -/
theorem C8_resolver_sign_unit_witness :
    0 ≤ get_rdw_brandstof_verbruik (.ok carC8) ∧
    (isElectricStr (some "Benzine") = true →
      verbruikUnit (some "Benzine") = "kWh/100km") ∧
    (isElectricStr (some "Benzine") = false →
      verbruikUnit (some "Benzine") = "L/100km") ∧
    (∀ v, (v = none ∨ ∃ s, v = some s ∧ pyFloat s = none) → floatOr0 v = 0) := by
  refine C8_resolver_sign_unit carC8 "Benzine" (by decide) (by decide) ?_
  intro k v q hv hq
  simp only [carC8, alistGet] at hv
  split at hv
  · injection hv with hv
    subst hv
    rw [show pyFloat "Benzine" = none from by decide] at hq
    cases hq
  · cases hv

/-- World for the C3 counterexample: the base query returns one record,
the fuel query raises a transport error. -/
def wC3x : RdwWorld :=
  ⟨fun _ => .json [[("kenteken", "AB12CD")]], fun _ => .exn "connection error"⟩

/-- Counterexample to C3 as stated: both registry requests sit in the
same `try` block, so a `RequestException` from the fuel query is caught
after the base query succeeded and the fetch returns (and caches) an
error result rather than the base vehicle record. -/
theorem C3_counterexample :
    (get_all_rdw_data id wC3x ⟨[], 0⟩ "AB12CD").1 =
      .error "Error: connection error" := by decide

/-- C3 (amended): for a plate whose base query returns a record, a fuel
query that returns no rows is non-fatal — the fetch returns the base
record with the fuel fields absent — and a fuel query that returns rows
merges them in; but a fuel query that raises a transport error is fatal:
the fetch returns an error result instead of the base record. -/
theorem C3_fuel_query_failure (dateFmt : RdwRecord → RdwRecord) (w : RdwWorld)
    (st : RdwState) (kenteken : String) (b : RdwRecord) (rest : List RdwRecord)
    (hmiss : alistGet st.cache (rdwNormalize kenteken) = none)
    (hbase : w.base (rdwNormalize kenteken) = .json (b :: rest)) :
    (w.fuel (rdwNormalize kenteken) = .json [] →
      (get_all_rdw_data dateFmt w st kenteken).1 = .ok (dateFmt b)) ∧
    (∀ f frest, w.fuel (rdwNormalize kenteken) = .json (f :: frest) →
      (get_all_rdw_data dateFmt w st kenteken).1 = .ok (dateFmt (dictUpdate b f))) ∧
    (∀ e, w.fuel (rdwNormalize kenteken) = .exn e →
      (get_all_rdw_data dateFmt w st kenteken).1 = .error ("Error: " ++ e)) := by
  unfold get_all_rdw_data
  simp only [hmiss, hbase]
  refine ⟨?_, ?_, ?_⟩
  · intro hfuel
    rw [hfuel]
    rfl
  · intro f frest hfuel
    rw [hfuel]
    rfl
  · intro e hfuel
    rw [hfuel]
    rfl

/-- World for the C3 witness: base query returns one record, fuel query
returns no rows. -/
def wC3 : RdwWorld := ⟨fun _ => .json [[("kenteken", "AB12CD")]], fun _ => .json []⟩

/-- Witness for C3 (amended): the empty fuel result leaves the base
record intact. -/
theorem C3_fuel_query_failure_witness :
    (get_all_rdw_data id wC3 ⟨[], 0⟩ "AB12CD").1 = .ok [("kenteken", "AB12CD")] :=
  (C3_fuel_query_failure id wC3 ⟨[], 0⟩ "AB12CD" [("kenteken", "AB12CD")] []
    rfl rfl).1 rfl

/-- C6: two consecutive fetches whose plates have the same normalized
form (differing only in hyphens, case or surrounding whitespace) issue
exactly one external request sequence — the second call hits the cache,
leaving the state unchanged — and return the identical cached result,
whatever the external outcome (so failed lookups are cached the same
way). -/
theorem C6_cache_once (dateFmt : RdwRecord → RdwRecord) (w : RdwWorld)
    (st : RdwState) (p1 p2 : String)
    (hmiss : alistGet st.cache (rdwNormalize p1) = none)
    (hnorm : rdwNormalize p1 = rdwNormalize p2) :
    (get_all_rdw_data dateFmt w st p1).1 =
      (get_all_rdw_data dateFmt w ((get_all_rdw_data dateFmt w st p1).2) p2).1 ∧
    (get_all_rdw_data dateFmt w ((get_all_rdw_data dateFmt w st p1).2) p2).2 =
      (get_all_rdw_data dateFmt w st p1).2 ∧
    ((get_all_rdw_data dateFmt w st p1).2).requestCount = st.requestCount + 1 := by
  unfold get_all_rdw_data
  simp only [hmiss, ← hnorm]
  cases hb : w.base (rdwNormalize p1) with
  | exn e => simp [cacheStore, alistGet]
  | json rows =>
    cases rows with
    | nil => simp [cacheStore, alistGet]
    | cons b rest =>
      cases hf : w.fuel (rdwNormalize p1) with
      | exn e => simp [cacheStore, alistGet]
      | json frows =>
        cases frows with
        | nil => simp [cacheStore, alistGet]
        | cons f frest => simp [cacheStore, alistGet]

/-- World for the C6 witness: the base query fails, so the witness also
exhibits caching of a failed lookup. -/
def wC6 : RdwWorld := ⟨fun _ => .exn "boom", fun _ => .json []⟩

/-- Witness for C6 at the plates `"12-AB-34"` and `"12AB34"`, whose
normalized forms coincide, over a failing external source. -/
theorem C6_cache_once_witness :
    rdwNormalize "12-AB-34" = rdwNormalize "12AB34" ∧
    ((get_all_rdw_data id wC6 ⟨[], 0⟩ "12-AB-34").1 =
      (get_all_rdw_data id wC6 ((get_all_rdw_data id wC6 ⟨[], 0⟩ "12-AB-34").2)
        "12AB34").1 ∧
    (get_all_rdw_data id wC6 ((get_all_rdw_data id wC6 ⟨[], 0⟩ "12-AB-34").2)
        "12AB34").2 = (get_all_rdw_data id wC6 ⟨[], 0⟩ "12-AB-34").2 ∧
    ((get_all_rdw_data id wC6 ⟨[], 0⟩ "12-AB-34").2).requestCount = 0 + 1) :=
  ⟨by decide, C6_cache_once id wC6 ⟨[], 0⟩ "12-AB-34" "12AB34" rfl (by decide)⟩

end Car
